import Mathlib

/-!
Shallow embedding of `src/model_position.c` (the Stage position model):
the per-tick command interpreter / kinematics policy / position controller
(`position_update`), the localization estimator (GPS and odometry branches),
and the lifecycle hooks (`position_init`, `position_load`, `position_startup`,
`position_shutdown`).  C `double` arithmetic is modelled by exact real
arithmetic over `ℝ`.
-/

namespace Stage

noncomputable section

/-- A 2D pose `{x, y, a}` (`stg_pose_t`).  Also used for the
`integration_error` and `pose_error` fields, which are `stg_pose_t` in C. -/
structure Pose where
  x : ℝ
  y : ℝ
  a : ℝ

/-- A velocity `{x, y, a}` (`stg_velocity_t`). -/
structure Velocity where
  x : ℝ
  y : ℝ
  a : ℝ

/-- Modelled from the spec: the `NORMALIZE` macro of `stage.h` (the header is
not under `src/`; the spec says headings are "normalized to the interval
`(-π, π]` after every update").  `normalize z` is the unique representative of
`z` modulo `2π` lying in `(-π, π]`. -/
def normalize (z : ℝ) : ℝ :=
  z - 2 * Real.pi * ⌈(z - Real.pi) / (2 * Real.pi)⌉

/-- Modelled from the spec: C's `atan2(y, x)`, the angle of the point `(x,y)`
in `(-π, π]` (with `atan2 0 0 = 0`), via the complex argument. -/
def atan2 (y x : ℝ) : ℝ := Complex.arg ⟨x, y⟩

/-- Drive mode `stg_position_drive_mode_t`. -/
inductive DriveMode where
  | differential
  | omni
deriving DecidableEq

/-- Localization mode `stg_position_localization_mode_t`. -/
inductive LocalizationMode where
  | gps
  | odom
deriving DecidableEq

/-- Control mode of a position command (`stg_position_control_mode_t`). -/
inductive CtrlMode where
  | velocity
  | position
deriving DecidableEq

/-- A position command `stg_position_cmd_t`: `{mode, x, y, a}`. -/
structure Cmd where
  mode : CtrlMode
  x : ℝ
  y : ℝ
  a : ℝ

/-- The `stg_position_data_t` record: believed pose, localization origin,
accumulated pose error, per-axis integration error and localization mode. -/
structure PositionData where
  pose : Pose
  origin : Pose
  pose_error : Pose
  integration_error : Pose
  localization : LocalizationMode

/-- The model state visible to this unit: the `position_data`, `velocity`,
`position_stall`, `position_cmd` and `position_drive` properties, plus the
subscription gate `mod->subs` (modelled as a `Bool`: at least one consumer). -/
structure ModelState where
  data : PositionData
  vel : Velocity
  stall : Bool
  cmd : Cmd
  drive : DriveMode
  subs : Bool

/-- Severity of a reported diagnostic, after the `PRINT_WARN*` / `PRINT_ERR*`
macro used at the call site in `src/model_position.c`. -/
inductive Severity where
  | warn
  | err
deriving DecidableEq

/-- A diagnostic message with the severity of the macro that reported it. -/
structure Diag where
  sev : Severity
  msg : String
deriving DecidableEq

/-- The worldfile keys consumed by `position_load`.  A key is `none` when
`wf_property_exists` is false; a present string key holds `none` when
`wf_read_string` returns `NULL`; tuple elements are `none` when absent, in
which case the C read functions return the supplied default. -/
structure Worldfile where
  drive : Option (Option String)
  odom_present : Bool
  localization_origin : Option (Option ℝ × Option ℝ × Option ℝ)
  odom_error : Option (Option ℝ × Option ℝ × Option ℝ)
  localization : Option (Option String)

/-- `STG_POSITION_INTEGRATION_ERROR_MAX_X` (`model_position.c:91`). -/
def integrationErrorMaxX : ℝ := 0.03

/-- `STG_POSITION_INTEGRATION_ERROR_MAX_Y` (`model_position.c:92`). -/
def integrationErrorMaxY : ℝ := 0.03

/-- `STG_POSITION_INTEGRATION_ERROR_MAX_A` (`model_position.c:93`). -/
def integrationErrorMaxA : ℝ := 0.05

/-- `position_init` (`model_position.c:102`).  `r1 r2 r3` are the three
`drand48()` draws (uniform on `[0,1)`); `subs` is the external subscription
state.  The defaults `STG_POSITION_DRIVE_DEFAULT` (differential),
`STG_POSITION_CONTROL_DEFAULT` (velocity) and
`STG_POSITION_LOCALIZATION_DEFAULT` (gps) come from `stage.h`, which is not
under `src/`; they are modelled from the spec (§4.6 "create"). -/
def position_init (r1 r2 r3 : ℝ) (subs : Bool) : ModelState :=
  { data :=
      { pose := ⟨0, 0, 0⟩
        origin := ⟨0, 0, 0⟩
        pose_error := ⟨0, 0, 0⟩
        integration_error :=
          ⟨r1 * integrationErrorMaxX - integrationErrorMaxX / 2,
           r2 * integrationErrorMaxY - integrationErrorMaxY / 2,
           r3 * integrationErrorMaxA - integrationErrorMaxA / 2⟩
        localization := LocalizationMode.gps }
    vel := ⟨0, 0, 0⟩
    stall := false
    cmd := { mode := CtrlMode.velocity, x := 0, y := 0, a := 0 }
    drive := DriveMode.differential
    subs := subs }

/-- The command dispatch of `position_update` (`model_position.c:320-444`):
given the current command, drive mode and believed pose, the velocity written
when at least one consumer is subscribed.  `MIN`/`MAX` are C's two-argument
macros (`stage_internal.h`), i.e. `min`/`max` on doubles. -/
def cmd_velocity (cmd : Cmd) (drive : DriveMode) (pose : Pose) :
    Velocity :=
  match cmd.mode with
  | CtrlMode.velocity =>
    match drive with
    | DriveMode.differential => ⟨cmd.x, 0, cmd.a⟩
    | DriveMode.omni => ⟨cmd.x, cmd.y, cmd.a⟩
  | CtrlMode.position =>
    let x_error := cmd.x - pose.x
    let y_error := cmd.y - pose.y
    let a_error := normalize (cmd.a - pose.a)
    let max_speed_x : ℝ := 0.4
    let max_speed_y : ℝ := 0.4
    let max_speed_a : ℝ := 1.0
    match drive with
    | DriveMode.omni =>
      ⟨min x_error max_speed_x, min y_error max_speed_y,
       min a_error max_speed_a⟩
    | DriveMode.differential =>
      let close_enough : ℝ := 0.02
      if |x_error| < close_enough ∧ |y_error| < close_enough then
        -- source lines 401-402: `calc.a = MIN(a_error, max_speed_a);`
        -- then `calc.a = MAX(a_error, -max_speed_a);` — the second
        -- assignment reads `a_error` again, so it overwrites the first
        ⟨0, 0, max a_error (-max_speed_a)⟩
      else
        let goal_angle := atan2 y_error x_error
        let goal_distance := Real.sqrt (y_error ^ 2 + x_error ^ 2)
        let a_error2 := normalize (goal_angle - pose.a)
        -- source lines 412-413: same overwritten MIN/MAX pair
        let calc_a := max a_error2 (-max_speed_a)
        let calc_x :=
          if |a_error2| < Real.pi / 16 then min goal_distance max_speed_x
          else 0
        ⟨calc_x, 0, calc_a⟩

/-- The localization estimator of `position_update`
(`model_position.c:471-511`).  `gpose` is the true global pose after the
external integrator ran; `vel` is the velocity computed this tick; `dt` is
`mod->world->sim_interval/1e3`. -/
def localization_update (dt : ℝ) (gpose : Pose) (vel : Velocity)
    (d : PositionData) : PositionData :=
  match d.localization with
  | LocalizationMode.gps =>
    let a := normalize (gpose.a - d.origin.a)
    let cosa := Real.cos d.origin.a
    let sina := Real.sin d.origin.a
    let dx := gpose.x - d.origin.x
    let dy := gpose.y - d.origin.y
    { d with pose := ⟨dx * cosa + dy * sina, dy * cosa - dx * sina, a⟩ }
  | LocalizationMode.odom =>
    let a := normalize (d.pose.a + vel.a * dt * (1 + d.integration_error.a))
    let cosa := Real.cos a
    let sina := Real.sin a
    let dx := vel.x * dt * (1 + d.integration_error.x)
    let dy := vel.y * dt * (1 + d.integration_error.y)
    { d with pose :=
        ⟨d.pose.x + (dx * cosa + dy * sina),
         d.pose.y - (dy * cosa - dx * sina), a⟩ }

/-- `position_update` (`model_position.c:288`).  Returns the new state and the
list of properties passed to `stg_model_property_refresh` this tick, in
order.  The velocity is zeroed first ("stop by default") and recomputed, the
stall flag cleared and `"velocity"` refreshed only inside `if (mod->subs)`;
then `_model_update` runs externally (yielding `gpose`), then the localization
estimator, then `"position_data"` is refreshed unconditionally. -/
def position_update (dt : ℝ) (gpose : Pose) (m : ModelState) :
    ModelState × List String :=
  let vel1 := if m.subs then cmd_velocity m.cmd m.drive m.data.pose
              else (⟨0, 0, 0⟩ : Velocity)
  let stall1 := if m.subs then false else m.stall
  let refr1 : List String := if m.subs then ["velocity"] else []
  let data1 := localization_update dt gpose vel1 m.data
  ({ m with vel := vel1, stall := stall1, data := data1 },
   refr1 ++ ["position_data"])

/-- `position_load` (`model_position.c:175`).  `gpose` is the model's current
true global pose.  Returns the new state and the reported diagnostics, in
order.  (The trailing unconditional `stg_model_property_refresh(mod,
"position_data")` is not returned; no claim concerns it.) -/
def position_load (wf : Worldfile) (gpose : Pose)
    (m : ModelState) : ModelState × List Diag :=
  -- drive mode: on an unrecognized string, `drive` keeps the value read from
  -- the current property ("now"), though the PRINT_ERR text claims a default
  let driveRes : DriveMode × List Diag :=
    match wf.drive with
    | none => (m.drive, [])
    | some none => (m.drive, [])
    | some (some s) =>
      if s = "diff" then (DriveMode.differential, [])
      else if s = "omni" then (DriveMode.omni, [])
      else (m.drive, [⟨Severity.err, "invalid position drive mode"⟩])
  -- deprecated odom key: PRINT_WARN1 only
  let diags1 := driveRes.2 ++
    (if wf.odom_present then
      [(⟨Severity.warn, "the odom property is no longer available"⟩ : Diag)]
     else [])
  -- origin := current global pose, possibly overwritten below
  let d1 := { m.data with origin := gpose }
  let d2 :=
    match wf.localization_origin with
    | none => d1
    | some t =>
      -- tuple reads default to the current believed pose (source 228-230)
      let ox := t.1.getD d1.pose.x
      let oy := t.2.1.getD d1.pose.y
      let oa := t.2.2.getD d1.pose.a
      -- recompute the believed pose: note the rotation uses cos/sin of the
      -- just-assigned `data->pose.a`, not of `origin.a` (source 236-242)
      let pa := normalize (gpose.a - oa)
      let cosa := Real.cos pa
      let sina := Real.sin pa
      let dx := gpose.x - ox
      let dy := gpose.y - oy
      { d1 with origin := ⟨ox, oy, oa⟩
                pose := ⟨dx * cosa + dy * sina, dy * cosa - dx * sina, pa⟩
                pose_error := ⟨0, 0, 0⟩ }
  -- odometry model parameters: directly overwrite integration_error
  let d3 :=
    match wf.odom_error with
    | none => d2
    | some t =>
      { d2 with integration_error :=
          ⟨t.1.getD d2.integration_error.x,
           t.2.1.getD d2.integration_error.y,
           t.2.2.getD d2.integration_error.a⟩ }
  -- localization mode: unrecognized or missing string → PRINT_ERR, retained
  let locRes : LocalizationMode × List Diag :=
    match wf.localization with
    | none => (d3.localization, [])
    | some none =>
      (d3.localization, [⟨Severity.err, "no localization mode string specified"⟩])
    | some (some s) =>
      if s = "gps" then (LocalizationMode.gps, [])
      else if s = "odom" then (LocalizationMode.odom, [])
      else (d3.localization, [⟨Severity.err, "unrecognized localization mode"⟩])
  let d4 := { d3 with localization := locRes.1 }
  ({ m with drive := driveRes.1, data := d4 }, diags1 ++ locRes.2)

/-- `position_startup` (`model_position.c:519`): no effect on the state. -/
def position_startup (m : ModelState) : ModelState := m

/-- `position_shutdown` (`model_position.c:531`): safety stop — command and
velocity are zeroed (`memset`; control-mode value 0 is velocity mode). -/
def position_shutdown (m : ModelState) : ModelState :=
  { m with cmd := { mode := CtrlMode.velocity, x := 0, y := 0, a := 0 }
           vel := ⟨0, 0, 0⟩ }

/-- `N` consecutive ticks: `g n` is the true global pose the external
integrator reports on tick `n`, `dt` the fixed step duration. -/
def run_ticks (dt : ℝ) (g : ℕ → Pose) (m : ModelState) :
    ℕ → ModelState
  | 0 => m
  | Nat.succ n => (position_update dt (g n) (run_ticks dt g m n)).1

/-- An external event driving the model: a simulation tick or a
configuration (load) event, each with the true global pose it observes. -/
inductive Event where
  | tick : ℝ → Pose → Event
  | load : Worldfile → Pose → Event

/-- Run a sequence of tick/configure events. -/
def run_events (m : ModelState) : List Event → ModelState
  | [] => m
  | Event.tick dt g :: es => run_events (position_update dt g m).1 es
  | Event.load wf g :: es => run_events (position_load wf g m).1 es

/-- The spec's heading invariant: the believed heading lies in `(-π, π]`. -/
def heading_ok (m : ModelState) : Prop :=
  -Real.pi < m.data.pose.a ∧ m.data.pose.a ≤ Real.pi

/-- Modelled from the spec: the believed pose "equals the true pose relative
to the new origin" — the origin-to-robot displacement rotated into the
origin's frame by `-origin.a`, heading `normalize(truePose.a - origin.a)`
(this is also exactly the GPS branch of `position_update`). -/
def spec_pose_relative_to_origin (gpose origin : Pose) : Pose :=
  let a := normalize (gpose.a - origin.a)
  let cosa := Real.cos origin.a
  let sina := Real.sin origin.a
  let dx := gpose.x - origin.x
  let dy := gpose.y - origin.y
  ⟨dx * cosa + dy * sina, dy * cosa - dx * sina, a⟩

/-- Modelled from the spec: the odometry step as the claim states it —
`(dx, dy)` rotated by the updated heading `a` and accumulated, i.e.
`x += dx·cos a - dy·sin a`, `y += dx·sin a + dy·cos a`. -/
def spec_odom_pose_step (dt : ℝ) (vel : Velocity)
    (d : PositionData) : Pose :=
  let a := normalize (d.pose.a + vel.a * dt * (1 + d.integration_error.a))
  let dx := vel.x * dt * (1 + d.integration_error.x)
  let dy := vel.y * dt * (1 + d.integration_error.y)
  ⟨d.pose.x + (dx * Real.cos a - dy * Real.sin a),
   d.pose.y + (dx * Real.sin a + dy * Real.cos a), a⟩

/-! ### Concrete states used by the examples below -/

/-- A zeroed `position_data` in GPS mode. -/
def dZero : PositionData :=
  ⟨⟨0, 0, 0⟩, ⟨0, 0, 0⟩, ⟨0, 0, 0⟩, ⟨0, 0, 0⟩, LocalizationMode.gps⟩

/-- A zeroed `position_data` in odometry mode. -/
def dOdomZero : PositionData := { dZero with localization := LocalizationMode.odom }

/-- A subscribed model at the origin, velocity command zero, differential. -/
def mBase : ModelState :=
  { data := dZero
    vel := ⟨0, 0, 0⟩
    stall := false
    cmd := ⟨CtrlMode.velocity, 0, 0, 0⟩
    drive := DriveMode.differential
    subs := true }

/-- State for the C1 example: position command with heading target 2 rad. -/
def mC1 : ModelState := { mBase with cmd := ⟨CtrlMode.position, 0, 0, 2⟩ }

/-- Worldfile for the C2 example: only `localization_origin [0 0 pi/2]`. -/
def wfC2 : Worldfile :=
  { drive := none
    odom_present := false
    localization_origin := some (some 0, some 0, some (Real.pi / 2))
    odom_error := none
    localization := none }

/-- State for the C3 example: stalled and unsubscribed. -/
def mC3 : ModelState := { mBase with stall := true, subs := false }

/-- State for the C4 example: a model whose sampled integration error is
`(0.01, 0.01, 0.01)`. -/
def mC4 : ModelState :=
  { mBase with data := { dZero with integration_error := ⟨0.01, 0.01, 0.01⟩ } }

/-- Worldfile for the C4 example: only `odom_error [0.1 0.1 0.1]`. -/
def wfC4 : Worldfile :=
  { drive := none
    odom_present := false
    localization_origin := none
    odom_error := some (some 0.1, some 0.1, some 0.1)
    localization := none }

/-- State for the C6 example: omni drive, position target `(1,1,0)`. -/
def mC6 : ModelState :=
  { mBase with cmd := ⟨CtrlMode.position, 1, 1, 0⟩, drive := DriveMode.omni }

/-- States for the C8 example: velocity command `(1.5, 2.5, -3)` under each
drive mode. -/
def mC8d : ModelState := { mBase with cmd := ⟨CtrlMode.velocity, 1.5, 2.5, -3⟩ }

/-- Omni counterpart of `mC8d`. -/
def mC8o : ModelState := { mC8d with drive := DriveMode.omni }

/-- State for the C9 example: odometry, zero error, command `(1,0,0)`. -/
def mC9 : ModelState :=
  { mBase with data := dOdomZero, cmd := ⟨CtrlMode.velocity, 1, 0, 0⟩ }

/-- State for the C10 example: non-default drive (omni) and localization
(odometry), so retention is distinguishable from the hardcoded defaults. -/
def mC10 : ModelState :=
  { mBase with data := dOdomZero, drive := DriveMode.omni }

/-- Worldfile for the C10 witness: unrecognized `drive` and `localization`
strings plus an `odom_error` tuple. -/
def wfC10w : Worldfile :=
  { drive := some (some "foo")
    odom_present := false
    localization_origin := none
    odom_error := some (some 0.1, some 0.2, some 0.3)
    localization := some (some "bar") }

/-- Worldfile for the C10 counterexample: only a bad `drive` string. -/
def wfC10c : Worldfile :=
  { drive := some (some "foo")
    odom_present := false
    localization_origin := none
    odom_error := none
    localization := none }

/-! ### Helper lemmas -/

/-- `normalize` always lands in `(-π, π]`. -/
theorem normalize_mem (z : ℝ) :
    -Real.pi < normalize z ∧ normalize z ≤ Real.pi := by
  have hπ : (0 : ℝ) < Real.pi := Real.pi_pos
  have h2π : (0 : ℝ) < 2 * Real.pi := by linarith
  unfold normalize
  set c := (z - Real.pi) / (2 * Real.pi) with hc
  have hcc : 2 * Real.pi * c = z - Real.pi := by
    rw [hc]
    field_simp
  have h1 : c ≤ (⌈c⌉ : ℝ) := Int.le_ceil c
  have h2 : (⌈c⌉ : ℝ) < c + 1 := Int.ceil_lt_add_one c
  constructor
  · have h3 : 2 * Real.pi * (⌈c⌉ : ℝ) < 2 * Real.pi * (c + 1) :=
      (mul_lt_mul_left h2π).mpr h2
    nlinarith
  · have h3 : 2 * Real.pi * c ≤ 2 * Real.pi * (⌈c⌉ : ℝ) :=
      (mul_le_mul_left h2π).mpr h1
    nlinarith

/-- `normalize` fixes angles already in `(-π, π]`. -/
theorem normalize_eq_self {z : ℝ} (hl : -Real.pi < z) (hr : z ≤ Real.pi) :
    normalize z = z := by
  have hπ : (0 : ℝ) < Real.pi := Real.pi_pos
  have h2π : (0 : ℝ) < 2 * Real.pi := by linarith
  unfold normalize
  have hle : (z - Real.pi) / (2 * Real.pi) ≤ 0 := by
    apply div_nonpos_of_nonpos_of_nonneg <;> linarith
  have hgt : (-1 : ℝ) < (z - Real.pi) / (2 * Real.pi) := by
    rw [lt_div_iff₀ h2π]
    linarith
  have hceil : ⌈(z - Real.pi) / (2 * Real.pi)⌉ = 0 := by
    have a1 : ⌈(z - Real.pi) / (2 * Real.pi)⌉ ≤ 0 := by
      rw [Int.ceil_le]
      push_cast
      exact hle
    have a2 : (-1 : ℤ) < ⌈(z - Real.pi) / (2 * Real.pi)⌉ := by
      rw [Int.lt_ceil]
      push_cast
      exact hgt
    omega
  rw [hceil]
  push_cast
  ring

theorem normalize_zero : normalize 0 = 0 :=
  normalize_eq_self (by linarith [Real.pi_pos]) (le_of_lt Real.pi_pos)

theorem normalize_two : normalize 2 = 2 :=
  normalize_eq_self (by linarith [Real.pi_pos]) (by linarith [Real.pi_gt_three])

theorem normalize_neg_pi_div_two :
    normalize (-(Real.pi / 2)) = -(Real.pi / 2) :=
  normalize_eq_self (by linarith [Real.pi_pos]) (by linarith [Real.pi_pos])

/-- `position_update` touches only `vel`, `stall` and `data`. -/
theorem position_update_const (dt : ℝ) (g : Pose) (m : ModelState) :
    (position_update dt g m).1.cmd = m.cmd ∧
    (position_update dt g m).1.drive = m.drive ∧
    (position_update dt g m).1.subs = m.subs := by
  exact ⟨rfl, rfl, rfl⟩

/-- The localization estimator only rewrites the believed pose. -/
theorem localization_update_const (dt : ℝ) (g : Pose) (vel : Velocity)
    (d : PositionData) :
    (localization_update dt g vel d).origin = d.origin ∧
    (localization_update dt g vel d).pose_error = d.pose_error ∧
    (localization_update dt g vel d).integration_error = d.integration_error ∧
    (localization_update dt g vel d).localization = d.localization := by
  rcases d with ⟨pose, origin, perr, ierr, loc⟩
  cases loc <;> exact ⟨rfl, rfl, rfl, rfl⟩

/-- The data written by a tick is the localization update of the old data. -/
theorem position_update_data (dt : ℝ) (g : Pose) (m : ModelState) :
    (position_update dt g m).1.data =
      localization_update dt g
        (if m.subs then cmd_velocity m.cmd m.drive m.data.pose
         else (⟨0, 0, 0⟩ : Velocity)) m.data := rfl

/-- With a subscribed consumer, the tick writes the dispatched command
velocity, clears the stall flag and refreshes `"velocity"`. -/
theorem position_update_subscribed (dt : ℝ) (g : Pose) (m : ModelState)
    (h : m.subs = true) :
    (position_update dt g m).1.vel = cmd_velocity m.cmd m.drive m.data.pose ∧
    (position_update dt g m).1.stall = false ∧
    (position_update dt g m).2 = ["velocity", "position_data"] := by
  refine ⟨?_, ?_, ?_⟩ <;> simp [position_update, h]

/-- Velocity-mode dispatch, differential drive (`model_position.c:333-338`). -/
theorem cmd_velocity_vel_diff (cmd : Cmd) (pose : Pose)
    (h : cmd.mode = CtrlMode.velocity) :
    cmd_velocity cmd DriveMode.differential pose = ⟨cmd.x, 0, cmd.a⟩ := by
  rcases cmd with ⟨mode, x, y, a⟩
  cases h
  rfl

/-- Velocity-mode dispatch, omni drive (`model_position.c:340-345`). -/
theorem cmd_velocity_vel_omni (cmd : Cmd) (pose : Pose)
    (h : cmd.mode = CtrlMode.velocity) :
    cmd_velocity cmd DriveMode.omni pose = ⟨cmd.x, cmd.y, cmd.a⟩ := by
  rcases cmd with ⟨mode, x, y, a⟩
  cases h
  rfl

/-- Position-mode dispatch, omni drive (`model_position.c:370-379`). -/
theorem cmd_velocity_pos_omni (cmd : Cmd) (pose : Pose)
    (h : cmd.mode = CtrlMode.position) :
    cmd_velocity cmd DriveMode.omni pose =
      ⟨min (cmd.x - pose.x) 0.4, min (cmd.y - pose.y) 0.4,
       min (normalize (cmd.a - pose.a)) 1.0⟩ := by
  rcases cmd with ⟨mode, x, y, a⟩
  cases h
  rfl

/-- The odometry branch written out (`model_position.c:490-504`). -/
theorem localization_update_odom_eq (dt : ℝ) (g : Pose) (vel : Velocity)
    (d : PositionData) (h : d.localization = LocalizationMode.odom) :
    localization_update dt g vel d =
      { d with pose :=
          ⟨d.pose.x +
             (vel.x * dt * (1 + d.integration_error.x) *
                Real.cos (normalize (d.pose.a +
                  vel.a * dt * (1 + d.integration_error.a))) +
              vel.y * dt * (1 + d.integration_error.y) *
                Real.sin (normalize (d.pose.a +
                  vel.a * dt * (1 + d.integration_error.a)))),
           d.pose.y -
             (vel.y * dt * (1 + d.integration_error.y) *
                Real.cos (normalize (d.pose.a +
                  vel.a * dt * (1 + d.integration_error.a))) -
              vel.x * dt * (1 + d.integration_error.x) *
                Real.sin (normalize (d.pose.a +
                  vel.a * dt * (1 + d.integration_error.a)))),
           normalize (d.pose.a + vel.a * dt * (1 + d.integration_error.a))⟩ } := by
  rcases d with ⟨pose, origin, perr, ierr, loc⟩
  cases h
  rfl

/-! ### Claims -/

/-- Claim C8: in velocity-control mode with an active consumer, the output
velocity is exactly `(x, 0, a)` under differential drive (the lateral
component is discarded, never an error) and exactly `(x, y, a)` under omni
drive. -/
theorem velocity_mode_kinematics (dt : ℝ) (g : Pose) (m : ModelState)
    (hs : m.subs = true) (hm : m.cmd.mode = CtrlMode.velocity) :
    (m.drive = DriveMode.differential →
      (position_update dt g m).1.vel = ⟨m.cmd.x, 0, m.cmd.a⟩) ∧
    (m.drive = DriveMode.omni →
      (position_update dt g m).1.vel = ⟨m.cmd.x, m.cmd.y, m.cmd.a⟩) := by
  have hv := (position_update_subscribed dt g m hs).1
  constructor
  · intro hd
    rw [hv, hd, cmd_velocity_vel_diff _ _ hm]
  · intro hd
    rw [hv, hd, cmd_velocity_vel_omni _ _ hm]

/-- Witness for C8 at command `(1.5, 2.5, -3)` under both drive modes. -/
theorem velocity_mode_kinematics_witness :
    (position_update 1 ⟨0, 0, 0⟩ mC8d).1.vel = ⟨1.5, 0, -3⟩ ∧
    (position_update 1 ⟨0, 0, 0⟩ mC8o).1.vel = ⟨1.5, 2.5, -3⟩ := by
  constructor
  · exact (velocity_mode_kinematics 1 ⟨0, 0, 0⟩ mC8d rfl rfl).1 rfl
  · exact (velocity_mode_kinematics 1 ⟨0, 0, 0⟩ mC8o rfl rfl).2 rfl

/-- Claim C6: in position-control mode with omni drive and an active
consumer, the output velocity is per-axis `(min(ex, 0.4), min(ey, 0.4),
min(ea, 1.0))` — an upper clamp only, negative errors pass through. -/
theorem omni_position_control (dt : ℝ) (g : Pose) (m : ModelState)
    (hs : m.subs = true) (hm : m.cmd.mode = CtrlMode.position)
    (hd : m.drive = DriveMode.omni) :
    (position_update dt g m).1.vel =
      ⟨min (m.cmd.x - m.data.pose.x) 0.4,
       min (m.cmd.y - m.data.pose.y) 0.4,
       min (normalize (m.cmd.a - m.data.pose.a)) 1.0⟩ := by
  rw [(position_update_subscribed dt g m hs).1, hd,
      cmd_velocity_pos_omni _ _ hm]

/-- Witness for C6: from pose `(0,0,0)` with target `(1,1,0)` the output is
exactly `(0.4, 0.4, 0)`. -/
theorem omni_position_control_witness :
    (position_update 1 ⟨0, 0, 0⟩ mC6).1.vel = ⟨0.4, 0.4, 0⟩ := by
  rw [omni_position_control 1 ⟨0, 0, 0⟩ mC6 rfl rfl rfl]
  show (⟨min (1 - 0) 0.4, min (1 - 0) 0.4,
         min (normalize (0 - 0)) 1.0⟩ : Velocity) = ⟨0.4, 0.4, 0⟩
  norm_num [normalize_zero, min_def]

/-- Claim C3 (amended): the stall flag is cleared and a `"velocity"` change
notification signaled only when at least one consumer is subscribed; the
`"position_data"` refresh is the one that is unconditional. -/
theorem stall_and_velocity_refresh_gated (dt : ℝ) (g : Pose) (m : ModelState) :
    (position_update dt g m).1.stall = (if m.subs then false else m.stall) ∧
    ("velocity" ∈ (position_update dt g m).2 ↔ m.subs = true) ∧
    "position_data" ∈ (position_update dt g m).2 := by
  cases hs : m.subs <;> simp [position_update, hs]

/-- Counterexample for C3: with no subscribed consumer the stall flag is not
reset (here it stays `true`) and no `"velocity"` notification is signaled. -/
theorem stall_not_cleared_without_subscriber :
    (position_update 1 ⟨0, 0, 0⟩ mC3).1.stall = true ∧
    "velocity" ∉ (position_update 1 ⟨0, 0, 0⟩ mC3).2 := by
  constructor
  · rfl
  · show "velocity" ∉ (["position_data"] : List String)
    simp

/-- Claim C1: evaluation of the code at heading error 2 rad.  The source
computes `calc.a = MIN(a_error, max_speed_a)` and then immediately overwrites
it with `calc.a = MAX(a_error, -max_speed_a)` (lines 401-402 and 412-413),
so only the lower clamp survives: with believed pose `(0,0,0)` and target
`(0,0,2)` the commanded angular velocity is `2`, exceeding
`max_speed_a = 1` — contradicting the claimed symmetric clamp. -/
theorem position_diff_angular_overshoot :
    ((position_update 1 ⟨0, 0, 0⟩ mC1).1.vel = ⟨0, 0, 2⟩ ∧
      ¬ |((position_update 1 ⟨0, 0, 0⟩ mC1).1.vel).a| ≤ 1) ∧
    cmd_velocity ⟨CtrlMode.position, 1, 0, 0⟩ DriveMode.differential
      ⟨0, 0, -2.5⟩ = ⟨0, 0, 2.5⟩ := by
  constructor
  · have hv : (position_update 1 ⟨0, 0, 0⟩ mC1).1.vel =
        cmd_velocity mC1.cmd mC1.drive mC1.data.pose :=
      (position_update_subscribed 1 ⟨0, 0, 0⟩ mC1 rfl).1
    have hc : cmd_velocity mC1.cmd mC1.drive mC1.data.pose = ⟨0, 0, 2⟩ := by
      show cmd_velocity ⟨CtrlMode.position, 0, 0, 2⟩ DriveMode.differential
          ⟨0, 0, 0⟩ = ⟨0, 0, 2⟩
      simp only [cmd_velocity]
      rw [if_pos (by norm_num)]
      have h2 : normalize ((2 : ℝ) - 0) = 2 := by
        rw [sub_zero]
        exact normalize_two
      rw [h2]
      norm_num [max_def]
    rw [hv, hc]
    norm_num
  · have harg : atan2 ((0 : ℝ) - 0) ((1 : ℝ) - 0) = 0 := by
      have hone : (⟨(1 : ℝ) - 0, (0 : ℝ) - 0⟩ : ℂ) = 1 := by
        rw [Complex.ext_iff]
        norm_num
      unfold atan2
      rw [hone, Complex.arg_one]
    have hnorm : normalize ((0 : ℝ) - -2.5) = 2.5 := by
      rw [show (0 : ℝ) - -2.5 = 2.5 by norm_num]
      exact normalize_eq_self (by linarith [Real.pi_pos])
        (by linarith [Real.pi_gt_three])
    simp only [cmd_velocity]
    rw [if_neg (by norm_num)]
    rw [harg, hnorm]
    have habs : ¬ |(2.5 : ℝ)| < Real.pi / 16 := by
      rw [abs_of_nonneg (by norm_num : (0 : ℝ) ≤ 2.5)]
      intro hcon
      nlinarith [Real.pi_le_four]
    rw [if_neg habs]
    norm_num [max_def]

/-- Claim C2: evaluation of `position_load` with `localization_origin`
overridden to `(0, 0, π/2)` while the true pose is `(1, 0, 0)`.  The code
rotates the origin-to-robot displacement by the just-computed believed
heading (`cos/sin` of `data->pose.a`, lines 237-238), producing believed
pose `(0, 1, -π/2)`; the claim (and the GPS branch of `position_update`)
rotate by `-origin.a`, which gives `(0, -1, -π/2)`.  The accumulated
`pose_error` reset to zero does hold. -/
theorem localization_origin_override_mismatch :
    (position_load wfC2 ⟨1, 0, 0⟩ mBase).1.data.pose = ⟨0, 1, -(Real.pi / 2)⟩ ∧
    spec_pose_relative_to_origin ⟨1, 0, 0⟩ ⟨0, 0, Real.pi / 2⟩ =
      ⟨0, -1, -(Real.pi / 2)⟩ ∧
    (position_load wfC2 ⟨1, 0, 0⟩ mBase).1.data.pose_error = ⟨0, 0, 0⟩ := by
  have h0 : (0 : ℝ) - Real.pi / 2 = -(Real.pi / 2) := by ring
  refine ⟨?_, ?_, ?_⟩
  · show (⟨(1 - 0) * Real.cos (normalize (0 - Real.pi / 2)) +
            (0 - 0) * Real.sin (normalize (0 - Real.pi / 2)),
          (0 - 0) * Real.cos (normalize (0 - Real.pi / 2)) -
            (1 - 0) * Real.sin (normalize (0 - Real.pi / 2)),
          normalize (0 - Real.pi / 2)⟩ : Pose) = ⟨0, 1, -(Real.pi / 2)⟩
    rw [h0, normalize_neg_pi_div_two]
    simp [Real.cos_pi_div_two, Real.sin_pi_div_two]
  · show (⟨(1 - 0) * Real.cos (Real.pi / 2) + (0 - 0) * Real.sin (Real.pi / 2),
          (0 - 0) * Real.cos (Real.pi / 2) - (1 - 0) * Real.sin (Real.pi / 2),
          normalize (0 - Real.pi / 2)⟩ : Pose) = ⟨0, -1, -(Real.pi / 2)⟩
    rw [h0, normalize_neg_pi_div_two]
    simp [Real.cos_pi_div_two, Real.sin_pi_div_two]
  · rfl

/-- Claim C5 (amended): in odometry localization the tick first updates the
heading to `a' = normalize(a + va·dt·(1+errA))`, computes
`dx = vx·dt·(1+errX)` and `dy = vy·dt·(1+errY)`, and then accumulates
`x += dx·cos(a') + dy·sin(a')` and `y += dx·sin(a') - dy·cos(a')` — the
`dy` cross-terms have the opposite sign to the rotation by `a'` stated in
the claim (they agree only when `vy = 0`). -/
theorem odometry_step_formula (dt : ℝ) (g : Pose) (vel : Velocity)
    (d : PositionData) (h : d.localization = LocalizationMode.odom) :
    (localization_update dt g vel d).pose.a =
      normalize (d.pose.a + vel.a * dt * (1 + d.integration_error.a)) ∧
    (localization_update dt g vel d).pose.x =
      d.pose.x +
        (vel.x * dt * (1 + d.integration_error.x) *
           Real.cos (normalize (d.pose.a +
             vel.a * dt * (1 + d.integration_error.a))) +
         vel.y * dt * (1 + d.integration_error.y) *
           Real.sin (normalize (d.pose.a +
             vel.a * dt * (1 + d.integration_error.a)))) ∧
    (localization_update dt g vel d).pose.y =
      d.pose.y +
        (vel.x * dt * (1 + d.integration_error.x) *
           Real.sin (normalize (d.pose.a +
             vel.a * dt * (1 + d.integration_error.a))) -
         vel.y * dt * (1 + d.integration_error.y) *
           Real.cos (normalize (d.pose.a +
             vel.a * dt * (1 + d.integration_error.a)))) := by
  rw [localization_update_odom_eq dt g vel d h]
  refine ⟨rfl, rfl, ?_⟩
  show d.pose.y - _ = _
  ring

/-- Witness for C5 (amended) at `vel = (2, 3, 0)`, `dt = 1`, zero error and
zero pose: the lateral component is accumulated with a negative sign,
`y = 0 + (2·sin 0 - 3·cos 0) = -3`. -/
theorem odometry_step_formula_witness :
    (localization_update 1 ⟨0, 0, 0⟩ ⟨2, 3, 0⟩ dOdomZero).pose.y = -3 := by
  have h := (odometry_step_formula 1 ⟨0, 0, 0⟩ ⟨2, 3, 0⟩ dOdomZero rfl).2.2
  rw [h]
  show (0 : ℝ) + (2 * 1 * (1 + 0) *
      Real.sin (normalize (0 + 0 * 1 * (1 + 0))) -
    3 * 1 * (1 + 0) * Real.cos (normalize (0 + 0 * 1 * (1 + 0)))) = -3
  have h0 : (0 : ℝ) + 0 * 1 * (1 + 0) = 0 := by norm_num
  rw [h0, normalize_zero, Real.sin_zero, Real.cos_zero]
  norm_num

/-- Counterexample for C5: with heading `0`, zero drift, `dt = 1` and pure
lateral velocity `(0, 1, 0)`, the code yields `believedPose.y = -1`, while
the claim's rotation formula (`y += dx·sin a + dy·cos a`) yields `+1`. -/
theorem odometry_lateral_sign_counterexample :
    (localization_update 1 ⟨0, 0, 0⟩ ⟨0, 1, 0⟩ dOdomZero).pose.y = -1 ∧
    (spec_odom_pose_step 1 ⟨0, 1, 0⟩ dOdomZero).y = 1 ∧
    ((localization_update 1 ⟨0, 0, 0⟩ ⟨0, 1, 0⟩ dOdomZero).pose.y ≠
      (spec_odom_pose_step 1 ⟨0, 1, 0⟩ dOdomZero).y) := by
  have h0 : (0 : ℝ) + 0 * 1 * (1 + 0) = 0 := by norm_num
  have hcode : (localization_update 1 ⟨0, 0, 0⟩ ⟨0, 1, 0⟩ dOdomZero).pose.y = -1 := by
    show (0 : ℝ) - (1 * 1 * (1 + 0) * Real.cos (normalize (0 + 0 * 1 * (1 + 0))) -
      0 * 1 * (1 + 0) * Real.sin (normalize (0 + 0 * 1 * (1 + 0)))) = -1
    rw [h0, normalize_zero, Real.sin_zero, Real.cos_zero]
    norm_num
  have hspec : (spec_odom_pose_step 1 ⟨0, 1, 0⟩ dOdomZero).y = 1 := by
    show (0 : ℝ) + (0 * 1 * (1 + 0) * Real.sin (normalize (0 + 0 * 1 * (1 + 0))) +
      1 * 1 * (1 + 0) * Real.cos (normalize (0 + 0 * 1 * (1 + 0)))) = 1
    rw [h0, normalize_zero, Real.sin_zero, Real.cos_zero]
    norm_num
  refine ⟨hcode, hspec, ?_⟩
  rw [hcode, hspec]
  norm_num

/-- Claim C4 (amended): the integration-error coefficients are set at model
creation as affine images of the three `drand48()` draws (each axis landing
in `[-E/2, E/2)` for draws in `[0,1)`, with defaults `E = (0.03, 0.03,
0.05)`), and are unchanged by every tick, by enable (`position_startup`), by
disable (`position_shutdown`) and by a configure without an `odom_error`
key; a configure whose worldfile carries an `odom_error` tuple, however,
replaces them directly with the configured values. -/
theorem integration_error_lifecycle (r1 r2 r3 : ℝ) (s : Bool) (dt : ℝ)
    (g : Pose) (m : ModelState) (wf : Worldfile) :
    ((position_init r1 r2 r3 s).data.integration_error =
      ⟨r1 * 0.03 - 0.03 / 2, r2 * 0.03 - 0.03 / 2, r3 * 0.05 - 0.05 / 2⟩) ∧
    (0 ≤ r1 → r1 < 1 →
      -(0.03 / 2) ≤ (position_init r1 r2 r3 s).data.integration_error.x ∧
      (position_init r1 r2 r3 s).data.integration_error.x < 0.03 / 2) ∧
    (0 ≤ r2 → r2 < 1 →
      -(0.03 / 2) ≤ (position_init r1 r2 r3 s).data.integration_error.y ∧
      (position_init r1 r2 r3 s).data.integration_error.y < 0.03 / 2) ∧
    (0 ≤ r3 → r3 < 1 →
      -(0.05 / 2) ≤ (position_init r1 r2 r3 s).data.integration_error.a ∧
      (position_init r1 r2 r3 s).data.integration_error.a < 0.05 / 2) ∧
    ((position_update dt g m).1.data.integration_error =
      m.data.integration_error) ∧
    ((position_startup m).data.integration_error =
      m.data.integration_error) ∧
    ((position_shutdown m).data.integration_error =
      m.data.integration_error) ∧
    (wf.odom_error = none →
      (position_load wf g m).1.data.integration_error =
        m.data.integration_error) ∧
    (∀ ex ey ea : ℝ, wf.odom_error = some (some ex, some ey, some ea) →
      (position_load wf g m).1.data.integration_error = ⟨ex, ey, ea⟩) := by
  obtain ⟨wd, wo, wlo, woe, wl⟩ := wf
  refine ⟨rfl, ?_, ?_, ?_, ?_, rfl, rfl, ?_, ?_⟩
  · intro h0 h1
    constructor
    · show -(0.03 / 2 : ℝ) ≤ r1 * 0.03 - 0.03 / 2
      nlinarith
    · show r1 * (0.03 : ℝ) - 0.03 / 2 < 0.03 / 2
      nlinarith
  · intro h0 h1
    constructor
    · show -(0.03 / 2 : ℝ) ≤ r2 * 0.03 - 0.03 / 2
      nlinarith
    · show r2 * (0.03 : ℝ) - 0.03 / 2 < 0.03 / 2
      nlinarith
  · intro h0 h1
    constructor
    · show -(0.05 / 2 : ℝ) ≤ r3 * 0.05 - 0.05 / 2
      nlinarith
    · show r3 * (0.05 : ℝ) - 0.05 / 2 < 0.05 / 2
      nlinarith
  · rw [position_update_data]
    exact (localization_update_const dt g _ m.data).2.2.1
  · intro h
    cases h
    cases wlo <;> rfl
  · intro ex ey ea h
    cases h
    cases wlo <;> rfl

/-- Witness for C4 (amended) at draws `0.5` and configured `odom_error
(0.1, 0.2, 0.3)` against a model whose sampled error was `(0.01, 0.01,
0.01)`. -/
theorem integration_error_lifecycle_witness :
    ((position_init 0.5 0.5 0.5 true).data.integration_error =
      ⟨0.5 * 0.03 - 0.03 / 2, 0.5 * 0.03 - 0.03 / 2, 0.5 * 0.05 - 0.05 / 2⟩) ∧
    (-(0.03 / 2) ≤ (position_init 0.5 0.5 0.5 true).data.integration_error.x ∧
      (position_init 0.5 0.5 0.5 true).data.integration_error.x < 0.03 / 2) ∧
    ((position_load wfC10w ⟨0, 0, 0⟩ mC4).1.data.integration_error =
      ⟨0.1, 0.2, 0.3⟩) := by
  have h := integration_error_lifecycle 0.5 0.5 0.5 true 1 ⟨0, 0, 0⟩ mC4 wfC10w
  exact ⟨h.1, h.2.1 (by norm_num) (by norm_num),
    h.2.2.2.2.2.2.2.2 0.1 0.2 0.3 rfl⟩

/-- Counterexample for C4: a configure event carrying `odom_error [0.1 0.1
0.1]` changes the integration-error coefficients of a model whose sampled
coefficients were `(0.01, 0.01, 0.01)` — they are not immutable. -/
theorem odom_error_config_changes_error :
    (position_load wfC4 ⟨0, 0, 0⟩ mC4).1.data.integration_error ≠
      mC4.data.integration_error := by
  show (⟨0.1, 0.1, 0.1⟩ : Pose) ≠ ⟨0.01, 0.01, 0.01⟩
  simp only [ne_eq, Pose.mk.injEq, not_and]
  intro h
  norm_num at h

/-- Claim C10 (amended): on an unrecognized drive-mode or localization
string, `position_load` reports an error-severity diagnostic (`PRINT_ERR`,
not a warning), retains the previously held value of that setting (despite
the drive message text claiming a default will be used), and configuration
continues without aborting — e.g. an `odom_error` tuple later in the same
worldfile is still applied. -/
theorem invalid_strings_retain_previous (m : ModelState) (g : Pose)
    (wf : Worldfile) (s t : String)
    (hd : wf.drive = some (some s)) (hd1 : s ≠ "diff") (hd2 : s ≠ "omni")
    (hl : wf.localization = some (some t)) (hl1 : t ≠ "gps")
    (hl2 : t ≠ "odom") :
    (position_load wf g m).1.drive = m.drive ∧
    (position_load wf g m).1.data.localization = m.data.localization ∧
    (⟨Severity.err, "invalid position drive mode"⟩ : Diag) ∈
      (position_load wf g m).2 ∧
    (⟨Severity.err, "unrecognized localization mode"⟩ : Diag) ∈
      (position_load wf g m).2 ∧
    (∀ ex ey ea : ℝ, wf.odom_error = some (some ex, some ey, some ea) →
      (position_load wf g m).1.data.integration_error = ⟨ex, ey, ea⟩) := by
  obtain ⟨wd, wo, wlo, woe, wl⟩ := wf
  simp only at hd hl
  subst hd hl
  refine ⟨?_, ?_, ?_, ?_, ?_⟩
  · simp [position_load, hd1, hd2]
  · cases wlo <;> cases woe <;> simp [position_load, hd1, hd2, hl1, hl2]
  · simp [position_load, hd1, hd2]
  · simp [position_load, hd1, hd2, hl1, hl2]
  · intro ex ey ea h
    cases h
    cases wlo <;> simp [position_load, hd1, hd2, hl1, hl2]

/-- Witness for C10 (amended): previous drive `omni` and localization `odom`
are retained under the bad strings `"foo"` / `"bar"` (distinguishing
retention from the hardcoded `diff`/`gps` defaults), and the `odom_error`
tuple of the same worldfile is still applied. -/
theorem invalid_strings_retain_previous_witness :
    (position_load wfC10w ⟨0, 0, 0⟩ mC10).1.drive = DriveMode.omni ∧
    (position_load wfC10w ⟨0, 0, 0⟩ mC10).1.data.localization =
      LocalizationMode.odom ∧
    (⟨Severity.err, "invalid position drive mode"⟩ : Diag) ∈
      (position_load wfC10w ⟨0, 0, 0⟩ mC10).2 ∧
    (position_load wfC10w ⟨0, 0, 0⟩ mC10).1.data.integration_error =
      ⟨0.1, 0.2, 0.3⟩ := by
  have h := invalid_strings_retain_previous mC10 ⟨0, 0, 0⟩ wfC10w "foo" "bar"
    rfl (by decide) (by decide) rfl (by decide) (by decide)
  exact ⟨h.1, h.2.1, h.2.2.1, h.2.2.2.2 0.1 0.2 0.3 rfl⟩

/-- Counterexample for C10: with only the unrecognized drive string
`"foo"` in the worldfile, the single diagnostic reported has severity
`err` (`PRINT_ERR1`, line 200), not `warn` — no warning is reported. -/
theorem invalid_drive_string_reports_err :
    (position_load wfC10c ⟨0, 0, 0⟩ mC10).2 =
      [⟨Severity.err, "invalid position drive mode"⟩] ∧
    Severity.err ≠ Severity.warn := by
  constructor
  · simp [position_load, wfC10c]
  · decide

/-- Both localization branches write a normalized heading. -/
theorem heading_ok_localization (dt : ℝ) (g : Pose) (vel : Velocity)
    (d : PositionData) :
    -Real.pi < (localization_update dt g vel d).pose.a ∧
    (localization_update dt g vel d).pose.a ≤ Real.pi := by
  rcases d with ⟨pose, origin, perr, ierr, loc⟩
  cases loc
  · exact normalize_mem _
  · exact normalize_mem _

/-- Every tick leaves the believed heading in `(-π, π]`. -/
theorem heading_ok_update (dt : ℝ) (g : Pose) (m : ModelState) :
    heading_ok (position_update dt g m).1 := by
  unfold heading_ok
  rw [position_update_data]
  exact heading_ok_localization dt g _ m.data

/-- A configure event preserves the heading invariant (it either leaves the
believed pose alone or writes a normalized heading). -/
theorem heading_ok_load (wf : Worldfile) (g : Pose) (m : ModelState)
    (h : heading_ok m) : heading_ok (position_load wf g m).1 := by
  obtain ⟨wd, wo, wlo, woe, wl⟩ := wf
  cases wlo with
  | none => cases woe <;> exact h
  | some t => cases woe <;> exact normalize_mem _

/-- Claim C7: for every sequence of ticks and configurations, from creation
or from any state satisfying the invariant, the believed heading lies in
`(-π, π]` after every update. -/
theorem heading_always_in_range :
    (∀ (r1 r2 r3 : ℝ) (s : Bool) (es : List Event),
      heading_ok (run_events (position_init r1 r2 r3 s) es)) ∧
    (∀ (m : ModelState) (es : List Event),
      heading_ok m → heading_ok (run_events m es)) := by
  have key : ∀ (es : List Event) (m : ModelState),
      heading_ok m → heading_ok (run_events m es) := by
    intro es
    induction es with
    | nil => intro m h; exact h
    | cons e es ih =>
      intro m h
      cases e with
      | tick dt g => exact ih _ (heading_ok_update dt g m)
      | load wf g => exact ih _ (heading_ok_load wf g m h)
  refine ⟨?_, fun m es h => key es m h⟩
  intro r1 r2 r3 s es
  apply key
  constructor
  · show -Real.pi < (0 : ℝ)
    linarith [Real.pi_pos]
  · show (0 : ℝ) ≤ Real.pi
    exact Real.pi_pos.le

/-- Witness for C7: one tick from a concrete zero-heading state. -/
theorem heading_always_in_range_witness :
    heading_ok (run_events mBase [Event.tick 1 ⟨0, 0, 0⟩]) := by
  apply heading_always_in_range.2
  constructor
  · show -Real.pi < (0 : ℝ)
    linarith [Real.pi_pos]
  · show (0 : ℝ) ≤ Real.pi
    exact Real.pi_pos.le

/-- Claim C9: with odometry localization, all integration-error coefficients
zero, initial believed pose `(0,0,0)` and a subscribed velocity-mode command
`(vx, 0, 0)`, after `N` ticks of duration `dt` the believed pose is exactly
`(N·vx·dt, 0, 0)` over exact real arithmetic (heading and `y` stay `0`). -/
theorem odometry_constant_velocity_exact (dt vx : ℝ) (g : ℕ → Pose)
    (m : ModelState)
    (hp : m.data.pose = ⟨0, 0, 0⟩)
    (he : m.data.integration_error = ⟨0, 0, 0⟩)
    (hl : m.data.localization = LocalizationMode.odom)
    (hs : m.subs = true)
    (hc : m.cmd = ⟨CtrlMode.velocity, vx, 0, 0⟩) :
    ∀ N : ℕ, (run_ticks dt g m N).data.pose = ⟨N * vx * dt, 0, 0⟩ := by
  suffices H : ∀ N : ℕ,
      (run_ticks dt g m N).data.pose = ⟨N * vx * dt, 0, 0⟩ ∧
      (run_ticks dt g m N).data.integration_error = ⟨0, 0, 0⟩ ∧
      (run_ticks dt g m N).data.localization = LocalizationMode.odom ∧
      (run_ticks dt g m N).subs = true ∧
      (run_ticks dt g m N).cmd = ⟨CtrlMode.velocity, vx, 0, 0⟩ from
    fun N => (H N).1
  intro N
  induction N with
  | zero =>
    refine ⟨?_, he, hl, hs, hc⟩
    rw [show run_ticks dt g m 0 = m from rfl, hp]
    norm_num
  | succ n ih =>
    obtain ⟨ih1, ih2, ih3, ih4, ih5⟩ := ih
    set mk := run_ticks dt g m n with hmk
    have hstep : run_ticks dt g m (n + 1) = (position_update dt (g n) mk).1 := rfl
    have hvel : (if mk.subs then cmd_velocity mk.cmd mk.drive mk.data.pose
        else (⟨0, 0, 0⟩ : Velocity)) = ⟨vx, 0, 0⟩ := by
      rw [ih4, ih5]
      simp only [if_true]
      cases hmd : mk.drive
      · exact cmd_velocity_vel_diff _ _ rfl
      · exact cmd_velocity_vel_omni _ _ rfl
    have hdata : (position_update dt (g n) mk).1.data =
        localization_update dt (g n) ⟨vx, 0, 0⟩ mk.data := by
      rw [position_update_data, hvel]
    refine ⟨?_, ?_, ?_, ih4, ih5⟩
    · rw [hstep, hdata, localization_update_odom_eq dt (g n) _ _ ih3]
      show (⟨mk.data.pose.x + _, mk.data.pose.y - _, _⟩ : Pose) = _
      rw [ih1, ih2]
      have ha : (⟨(n : ℝ) * vx * dt, 0, 0⟩ : Pose).a +
          (⟨vx, 0, 0⟩ : Velocity).a * dt * (1 + (⟨0, 0, 0⟩ : Pose).a) = 0 := by
        norm_num
      rw [Pose.mk.injEq]
      refine ⟨?_, ?_, ?_⟩
      · simp only [ha, normalize_zero, Real.cos_zero, Real.sin_zero]
        push_cast
        ring
      · simp only [ha, normalize_zero, Real.cos_zero, Real.sin_zero]
        ring
      · simp only [ha, normalize_zero]
    · rw [hstep, hdata]
      rw [(localization_update_const dt (g n) _ mk.data).2.2.1]
      exact ih2
    · rw [hstep, hdata]
      rw [(localization_update_const dt (g n) _ mk.data).2.2.2]
      exact ih3

/-- Witness for C9: two ticks at `vx = 1`, `dt = 1` put the believed pose at
exactly `(2, 0, 0)`. -/
theorem odometry_constant_velocity_exact_witness :
    (run_ticks 1 (fun _ => ⟨0, 0, 0⟩) mC9 2).data.pose = ⟨2, 0, 0⟩ := by
  have h := odometry_constant_velocity_exact 1 1 (fun _ => ⟨0, 0, 0⟩) mC9
    rfl rfl rfl rfl rfl 2
  simpa using h

end

end Stage
